import Mathlib

/-!
Shallow embedding of the Apollo vendor-request dispatch layer
(`firmware/src/vendor.c`).

The C code steers USB control transfers through a three-stage lifecycle
(setup, data-complete, finish/ACK).  Every handler in `vendor.c` either
performs a hardware side effect and/or submits a response buffer through
TinyUSB's `tud_control_xfer`.  We embed each handler as a pure function from
the request to a pair `(accepted : Bool, trace : List Event)`, where the
trace records, in order, entry into named handler functions and calls into
the external hardware primitives (LED scheduler, FPGA driver, USB switch,
control-transfer submission).  Handlers implemented outside this file's
source (JTAG engine, debug-SPI engine) are modeled opaquely: an entry event
plus a result chosen by an environment.
-/

/-- The fields of `tusb_control_request_t` that `vendor.c` reads:
`bRequest` (8-bit opcode), `wValue`, `wIndex`, `wLength`. -/
structure Request where
  bRequest : Nat
  wValue : Nat
  wIndex : Nat
  wLength : Nat
deriving DecidableEq, Repr

/-- Names of the handler functions that the three dispatch switches in
`vendor.c` can invoke. -/
inductive HandlerName where
  | handle_get_id_request
  | handle_trigger_fpga_reconfiguration
  | handle_force_fpga_offline
  | handle_allow_fpga_takeover_usb
  | handle_jtag_request_clear_out_buffer
  | handle_jtag_request_set_out_buffer
  | handle_jtag_request_get_in_buffer
  | handle_jtag_request_scan
  | handle_jtag_run_clock
  | handle_jtag_start
  | handle_jtag_go_to_state
  | handle_jtag_stop
  | handle_jtag_get_state
  | handle_set_led_pattern
  | handle_debug_spi_send
  | handle_debug_spi_get_response
  | handle_flash_spi_send
  | handle_take_configuration_spi
  | handle_release_configuration_spi
  | handle_get_ms_descriptor
  | handle_allow_fpga_takeover_usb_finish
  | handle_debug_spi_send_complete
  | handle_flash_spi_send_complete
deriving DecidableEq, Repr

/-- Observable events of one stage invocation: entry into a handler
function, calls to the external hardware primitives that `vendor.c`
invokes, and submission of a control-transfer buffer (`tud_control_xfer`,
carrying the response bytes and the declared total length). -/
inductive Event where
  | call (h : HandlerName)
  | led_set_blink_pattern (blink_pattern : Nat)
  | trigger_fpga_reconfiguration
  | force_fpga_offline
  | allow_fpga_takeover_usb
  | tud_control_xfer (buffer : Option (List Nat)) (total_length : Nat)
deriving DecidableEq, Repr

/-- Environment supplying the return value of each handler implemented
outside `vendor.c` (the JTAG and debug-SPI engines); their internals are
external collaborators of this layer. -/
structure Env where
  ext_result : HandlerName → Bool

/-- The result of one handler or one stage dispatch: the accept/reject
boolean the C function returns, plus the trace of events it performed. -/
abbrev HandlerResult := Bool × List Event

/-- Prefix a handler result with the entry event of the named handler. -/
def traced (h : HandlerName) (r : HandlerResult) : HandlerResult :=
  (r.1, Event.call h :: r.2)

/-- Sequence side-effect events before the rest of a handler body. -/
def effects_then (pre : List Event) (r : HandlerResult) : HandlerResult :=
  (r.1, pre ++ r.2)

/-- External TinyUSB primitive `tud_control_xfer(rhport, request, buffer,
len)`: submits `len` bytes from `buffer` (or a zero-length status response
when the buffer is NULL) and accepts the transfer.  Modeled as recording
the submitted bytes and returning acceptance. -/
def tud_control_xfer (rhport : Nat) (request : Request)
    (buffer : Option (List Nat)) (len : Nat) : HandlerResult :=
  (true, [Event.tud_control_xfer buffer len])

-- Vendor request opcodes from the `enum` in vendor.c.

def VENDOR_REQUEST_GET_ID : Nat := 0xa0
def VENDOR_REQUEST_SET_LED_PATTERN : Nat := 0xa1
def VENDOR_REQUEST_JTAG_START : Nat := 0xbf
def VENDOR_REQUEST_JTAG_STOP : Nat := 0xbe
def VENDOR_REQUEST_JTAG_CLEAR_OUT_BUFFER : Nat := 0xb0
def VENDOR_REQUEST_JTAG_SET_OUT_BUFFER : Nat := 0xb1
def VENDOR_REQUEST_JTAG_GET_IN_BUFFER : Nat := 0xb2
def VENDOR_REQUEST_JTAG_SCAN : Nat := 0xb3
def VENDOR_REQUEST_JTAG_RUN_CLOCK : Nat := 0xb4
def VENDOR_REQUEST_JTAG_GOTO_STATE : Nat := 0xb5
def VENDOR_REQUEST_JTAG_GET_STATE : Nat := 0xb6
def VENDOR_REQUEST_JTAG_BULK_SCAN : Nat := 0xb7
def VENDOR_REQUEST_TRIGGER_RECONFIGURATION : Nat := 0xc0
def VENDOR_REQUEST_FORCE_FPGA_OFFLINE : Nat := 0xc1
def VENDOR_REQUEST_ALLOW_FPGA_TAKEOVER_USB : Nat := 0xc2
def VENDOR_REQUEST_DEBUG_SPI_SEND : Nat := 0x50
def VENDOR_REQUEST_DEBUG_SPI_READ_RESPONSE : Nat := 0x51
def VENDOR_REQUEST_FLASH_SPI_SEND : Nat := 0x52
def VENDOR_REQUEST_TAKE_FLASH_LINES : Nat := 0x53
def VENDOR_REQUEST_RELEASE_FLASH_LINES : Nat := 0x54
def VENDOR_REQUEST_GET_RAIL_VOLTAGE : Nat := 0xe0
def VENDOR_REQUEST_GET_MS_DESCRIPTOR : Nat := 0xee

/-- The `U32_TO_U8S_LE` macro: little-endian byte expansion of a 32-bit value. -/
def U32_TO_U8S_LE (x : Nat) : List Nat :=
  [x % 256, x / 2 ^ 8 % 256, x / 2 ^ 16 % 256, x / 2 ^ 24 % 256]

/-- The `U16_TO_U8S_LE` macro: little-endian byte expansion of a 16-bit value. -/
def U16_TO_U8S_LE (x : Nat) : List Nat :=
  [x % 256, x / 2 ^ 8 % 256]

/-- The Microsoft OS 1.0 descriptor `desc_ms_os_10` from vendor.c:
header (length, bcdVersion, wIndex, bCount, reserved[7]) followed by the
compatible-ID record (bFirstInterfaceNumber, reserved, compatibleID[8],
subCompatibleID[8], reserved[6]). -/
def desc_ms_os_10 : List Nat :=
  U32_TO_U8S_LE 0x0028 ++
  U16_TO_U8S_LE 0x0100 ++
  U16_TO_U8S_LE 0x0004 ++
  [0x01] ++
  [0x00, 0x00, 0x00, 0x00, 0x00, 0x00, 0x00] ++
  [0x02] ++
  [0x01] ++
  (['W', 'I', 'N', 'U', 'S', 'B'].map Char.toNat) ++ [0x00, 0x00] ++
  [0x00, 0x00, 0x00, 0x00, 0x00, 0x00, 0x00, 0x00] ++
  [0x00, 0x00, 0x00, 0x00, 0x00, 0x00]

/-- `handle_get_ms_descriptor`: serves the Microsoft Windows Compatible ID
descriptor when `wIndex == 0x0004`, otherwise returns false. -/
def handle_get_ms_descriptor (rhport : Nat) (request : Request) : HandlerResult :=
  traced .handle_get_ms_descriptor
    (if request.wIndex = 0x0004 then
      tud_control_xfer rhport request (some desc_ms_os_10) desc_ms_os_10.length
    else
      (false, []))

/-- The static identity string `"Apollo Debug Module"` of
`handle_get_id_request`, as the byte array `description[]` — the C string
literal including its terminating NUL, so `sizeof(description)` bytes. -/
def description : List Nat :=
  ("Apollo Debug Module".data.map Char.toNat) ++ [0x00]

/-- `handle_get_id_request`: transfers the identity string, including its
terminating NUL (`sizeof(description)` bytes). -/
def handle_get_id_request (rhport : Nat) (request : Request) : HandlerResult :=
  traced .handle_get_id_request
    (tud_control_xfer rhport request (some description) description.length)

/-- External LED scheduler primitive `led_set_blink_pattern`. -/
def led_set_blink_pattern (blink_pattern : Nat) : List Event :=
  [Event.led_set_blink_pattern blink_pattern]

/-- External FPGA driver primitive `trigger_fpga_reconfiguration`. -/
def trigger_fpga_reconfiguration : List Event :=
  [Event.trigger_fpga_reconfiguration]

/-- External FPGA driver primitive `force_fpga_offline`. -/
def force_fpga_offline : List Event :=
  [Event.force_fpga_offline]

/-- External USB switch primitive `allow_fpga_takeover_usb`: hands the USB
port to the FPGA (the disruptive hardware action). -/
def allow_fpga_takeover_usb : List Event :=
  [Event.allow_fpga_takeover_usb]

/-- `handle_set_led_pattern`: sets the blink pattern to `wValue`, then
acknowledges with a zero-length transfer. -/
def handle_set_led_pattern (rhport : Nat) (request : Request) : HandlerResult :=
  traced .handle_set_led_pattern
    (effects_then (led_set_blink_pattern request.wValue)
      (tud_control_xfer rhport request none 0))

/-- `handle_trigger_fpga_reconfiguration`: triggers FPGA reconfiguration,
then acknowledges with a zero-length transfer. -/
def handle_trigger_fpga_reconfiguration (rhport : Nat) (request : Request) : HandlerResult :=
  traced .handle_trigger_fpga_reconfiguration
    (effects_then trigger_fpga_reconfiguration
      (tud_control_xfer rhport request none 0))

/-- `handle_force_fpga_offline`: forces the FPGA offline, then acknowledges
with a zero-length transfer. -/
def handle_force_fpga_offline (rhport : Nat) (request : Request) : HandlerResult :=
  traced .handle_force_fpga_offline
    (effects_then force_fpga_offline
      (tud_control_xfer rhport request none 0))

/-- `handle_allow_fpga_takeover_usb` (Setup stage): only acknowledges with
a zero-length transfer; the takeover itself is deferred to Finish. -/
def handle_allow_fpga_takeover_usb (rhport : Nat) (request : Request) : HandlerResult :=
  traced .handle_allow_fpga_takeover_usb
    (tud_control_xfer rhport request none 0)

/-- `handle_allow_fpga_takeover_usb_finish` (Finish stage): performs the
USB-port takeover and returns true. -/
def handle_allow_fpga_takeover_usb_finish (rhport : Nat) (request : Request) : HandlerResult :=
  traced .handle_allow_fpga_takeover_usb_finish
    (effects_then allow_fpga_takeover_usb (true, []))

/-- External handler (JTAG engine, jtag.c): modeled as an opaque call whose
result the environment chooses. -/
def ext_handler (env : Env) (h : HandlerName) : HandlerResult :=
  traced h (env.ext_result h, [])

/-- Does the board define `_BOARD_HAS_DEBUG_SPI`?  The debug-SPI cases of
the Setup switch exist only under this compile-time flag. -/
abbrev BoardHasDebugSpi := Bool

/-- `handle_vendor_request_setup`: the Setup-stage switch on `bRequest`. -/
def handle_vendor_request_setup (dbg : BoardHasDebugSpi) (env : Env)
    (rhport : Nat) (request : Request) : HandlerResult :=
  if request.bRequest = VENDOR_REQUEST_GET_ID then
    handle_get_id_request rhport request
  else if request.bRequest = VENDOR_REQUEST_TRIGGER_RECONFIGURATION then
    handle_trigger_fpga_reconfiguration rhport request
  else if request.bRequest = VENDOR_REQUEST_FORCE_FPGA_OFFLINE then
    handle_force_fpga_offline rhport request
  else if request.bRequest = VENDOR_REQUEST_ALLOW_FPGA_TAKEOVER_USB then
    handle_allow_fpga_takeover_usb rhport request
  else if request.bRequest = VENDOR_REQUEST_JTAG_CLEAR_OUT_BUFFER then
    ext_handler env .handle_jtag_request_clear_out_buffer
  else if request.bRequest = VENDOR_REQUEST_JTAG_SET_OUT_BUFFER then
    ext_handler env .handle_jtag_request_set_out_buffer
  else if request.bRequest = VENDOR_REQUEST_JTAG_GET_IN_BUFFER then
    ext_handler env .handle_jtag_request_get_in_buffer
  else if request.bRequest = VENDOR_REQUEST_JTAG_SCAN then
    ext_handler env .handle_jtag_request_scan
  else if request.bRequest = VENDOR_REQUEST_JTAG_RUN_CLOCK then
    ext_handler env .handle_jtag_run_clock
  else if request.bRequest = VENDOR_REQUEST_JTAG_START then
    ext_handler env .handle_jtag_start
  else if request.bRequest = VENDOR_REQUEST_JTAG_GOTO_STATE then
    ext_handler env .handle_jtag_go_to_state
  else if request.bRequest = VENDOR_REQUEST_JTAG_STOP then
    ext_handler env .handle_jtag_stop
  else if request.bRequest = VENDOR_REQUEST_JTAG_GET_STATE then
    ext_handler env .handle_jtag_get_state
  else if request.bRequest = VENDOR_REQUEST_SET_LED_PATTERN then
    handle_set_led_pattern rhport request
  else if dbg ∧ request.bRequest = VENDOR_REQUEST_DEBUG_SPI_SEND then
    ext_handler env .handle_debug_spi_send
  else if dbg ∧ request.bRequest = VENDOR_REQUEST_DEBUG_SPI_READ_RESPONSE then
    ext_handler env .handle_debug_spi_get_response
  else if dbg ∧ request.bRequest = VENDOR_REQUEST_FLASH_SPI_SEND then
    ext_handler env .handle_flash_spi_send
  else if dbg ∧ request.bRequest = VENDOR_REQUEST_TAKE_FLASH_LINES then
    ext_handler env .handle_take_configuration_spi
  else if dbg ∧ request.bRequest = VENDOR_REQUEST_RELEASE_FLASH_LINES then
    ext_handler env .handle_release_configuration_spi
  else if request.bRequest = VENDOR_REQUEST_GET_MS_DESCRIPTOR then
    handle_get_ms_descriptor rhport request
  else
    (false, [])

/-- `handle_vendor_request_complete`: the Data-stage switch on `bRequest`.
Unrecognized opcodes fall through to `return true`. -/
def handle_vendor_request_complete (env : Env) (rhport : Nat)
    (request : Request) : HandlerResult :=
  if request.bRequest = VENDOR_REQUEST_DEBUG_SPI_SEND then
    ext_handler env .handle_debug_spi_send_complete
  else if request.bRequest = VENDOR_REQUEST_FLASH_SPI_SEND then
    ext_handler env .handle_flash_spi_send_complete
  else
    (true, [])

/-- `handle_vendor_request_finish`: the Finish/ACK-stage switch on
`bRequest`.  Unrecognized opcodes fall through to `return true`. -/
def handle_vendor_request_finish (rhport : Nat) (request : Request) : HandlerResult :=
  if request.bRequest = VENDOR_REQUEST_ALLOW_FPGA_TAKEOVER_USB then
    handle_allow_fpga_takeover_usb_finish rhport request
  else
    (true, [])

-- TinyUSB control-transfer stage constants (tusb_types.h: the enum
-- CONTROL_STAGE_IDLE, CONTROL_STAGE_SETUP, CONTROL_STAGE_DATA,
-- CONTROL_STAGE_ACK).

def CONTROL_STAGE_SETUP : Nat := 1
def CONTROL_STAGE_DATA : Nat := 2
def CONTROL_STAGE_ACK : Nat := 3

/-- `tud_vendor_control_xfer_cb`: TinyUSB's per-stage callback, switching
on the stage; unknown stages fall through to `return true`. -/
def tud_vendor_control_xfer_cb (dbg : BoardHasDebugSpi) (env : Env)
    (rhport : Nat) (stage : Nat) (request : Request) : HandlerResult :=
  if stage = CONTROL_STAGE_SETUP then
    handle_vendor_request_setup dbg env rhport request
  else if stage = CONTROL_STAGE_DATA then
    handle_vendor_request_complete env rhport request
  else if stage = CONTROL_STAGE_ACK then
    handle_vendor_request_finish rhport request
  else
    (true, [])

/-- The handler-entry events of a trace: which handlers executed, in order. -/
def calls (tr : List Event) : List HandlerName :=
  tr.filterMap fun e =>
    match e with
    | Event.call h => some h
    | _ => none

/-- Association-list lookup of an opcode in a stage table. -/
def lookup_opcode (b : Nat) : List (Nat × HandlerName) → Option HandlerName
  | [] => none
  | (k, h) :: rest => if b = k then some h else lookup_opcode b rest

/-- The Setup-stage opcode table: one entry per `case` of
`handle_vendor_request_setup`, in switch order; the debug-SPI group is
present only when the board has debug SPI. -/
def setup_table (dbg : BoardHasDebugSpi) : List (Nat × HandlerName) :=
  [(VENDOR_REQUEST_GET_ID, .handle_get_id_request),
   (VENDOR_REQUEST_TRIGGER_RECONFIGURATION, .handle_trigger_fpga_reconfiguration),
   (VENDOR_REQUEST_FORCE_FPGA_OFFLINE, .handle_force_fpga_offline),
   (VENDOR_REQUEST_ALLOW_FPGA_TAKEOVER_USB, .handle_allow_fpga_takeover_usb),
   (VENDOR_REQUEST_JTAG_CLEAR_OUT_BUFFER, .handle_jtag_request_clear_out_buffer),
   (VENDOR_REQUEST_JTAG_SET_OUT_BUFFER, .handle_jtag_request_set_out_buffer),
   (VENDOR_REQUEST_JTAG_GET_IN_BUFFER, .handle_jtag_request_get_in_buffer),
   (VENDOR_REQUEST_JTAG_SCAN, .handle_jtag_request_scan),
   (VENDOR_REQUEST_JTAG_RUN_CLOCK, .handle_jtag_run_clock),
   (VENDOR_REQUEST_JTAG_START, .handle_jtag_start),
   (VENDOR_REQUEST_JTAG_GOTO_STATE, .handle_jtag_go_to_state),
   (VENDOR_REQUEST_JTAG_STOP, .handle_jtag_stop),
   (VENDOR_REQUEST_JTAG_GET_STATE, .handle_jtag_get_state),
   (VENDOR_REQUEST_SET_LED_PATTERN, .handle_set_led_pattern)] ++
  (if dbg then
    [(VENDOR_REQUEST_DEBUG_SPI_SEND, .handle_debug_spi_send),
     (VENDOR_REQUEST_DEBUG_SPI_READ_RESPONSE, .handle_debug_spi_get_response),
     (VENDOR_REQUEST_FLASH_SPI_SEND, .handle_flash_spi_send),
     (VENDOR_REQUEST_TAKE_FLASH_LINES, .handle_take_configuration_spi),
     (VENDOR_REQUEST_RELEASE_FLASH_LINES, .handle_release_configuration_spi)]
  else []) ++
  [(VENDOR_REQUEST_GET_MS_DESCRIPTOR, .handle_get_ms_descriptor)]

/-- The Data-stage opcode table: one entry per `case` of
`handle_vendor_request_complete`. -/
def data_table : List (Nat × HandlerName) :=
  [(VENDOR_REQUEST_DEBUG_SPI_SEND, .handle_debug_spi_send_complete),
   (VENDOR_REQUEST_FLASH_SPI_SEND, .handle_flash_spi_send_complete)]

/-- The Finish-stage opcode table: one entry per `case` of
`handle_vendor_request_finish`. -/
def finish_table : List (Nat × HandlerName) :=
  [(VENDOR_REQUEST_ALLOW_FPGA_TAKEOVER_USB, .handle_allow_fpga_takeover_usb_finish)]

/-- The LED blink pattern after replaying a trace from an initial pattern:
`led_set_blink_pattern` overwrites it; no other event touches it. -/
def led_pattern_after (s : Option Nat) (tr : List Event) : Option Nat :=
  tr.foldl (fun s e =>
    match e with
    | Event.led_set_blink_pattern p => some p
    | _ => s) s

-- Helper lemmas for reducing traces.

@[simp] lemma calls_nil : calls [] = [] := rfl

@[simp] lemma calls_call_cons (h : HandlerName) (tr : List Event) :
    calls (Event.call h :: tr) = h :: calls tr := rfl

@[simp] lemma calls_led_cons (p : Nat) (tr : List Event) :
    calls (Event.led_set_blink_pattern p :: tr) = calls tr := rfl

@[simp] lemma calls_trigger_cons (tr : List Event) :
    calls (Event.trigger_fpga_reconfiguration :: tr) = calls tr := rfl

@[simp] lemma calls_offline_cons (tr : List Event) :
    calls (Event.force_fpga_offline :: tr) = calls tr := rfl

@[simp] lemma calls_takeover_cons (tr : List Event) :
    calls (Event.allow_fpga_takeover_usb :: tr) = calls tr := rfl

@[simp] lemma calls_xfer_cons (b : Option (List Nat)) (n : Nat) (tr : List Event) :
    calls (Event.tud_control_xfer b n :: tr) = calls tr := rfl

/-- C1: for the takeover-handoff opcode 0xC2, the disruptive action
`allow_fpga_takeover_usb()` is never performed by Setup-stage dispatch, and
Finish-stage dispatch performs exactly that call (its trace is the entry of
`handle_allow_fpga_takeover_usb_finish` followed by the takeover action and
nothing else). -/
theorem c1_takeover_only_at_finish (dbg : BoardHasDebugSpi) (env : Env)
    (rhport : Nat) (request : Request)
    (hb : request.bRequest = VENDOR_REQUEST_ALLOW_FPGA_TAKEOVER_USB) :
    Event.allow_fpga_takeover_usb ∉ (handle_vendor_request_setup dbg env rhport request).2 ∧
    (handle_vendor_request_finish rhport request).2 =
      [Event.call .handle_allow_fpga_takeover_usb_finish, Event.allow_fpga_takeover_usb] := by
  constructor
  · simp [handle_vendor_request_setup, hb, handle_allow_fpga_takeover_usb, traced,
      tud_control_xfer, VENDOR_REQUEST_GET_ID, VENDOR_REQUEST_TRIGGER_RECONFIGURATION,
      VENDOR_REQUEST_FORCE_FPGA_OFFLINE, VENDOR_REQUEST_ALLOW_FPGA_TAKEOVER_USB]
  · simp [handle_vendor_request_finish, hb, handle_allow_fpga_takeover_usb_finish,
      traced, effects_then, allow_fpga_takeover_usb,
      VENDOR_REQUEST_ALLOW_FPGA_TAKEOVER_USB]

/-- Witness for C1 at the concrete request (0xC2, 0, 0, 0). -/
theorem c1_takeover_only_at_finish_witness :
    Event.allow_fpga_takeover_usb ∉
      (handle_vendor_request_setup false ⟨fun _ => true⟩ 0 ⟨0xc2, 0, 0, 0⟩).2 ∧
    (handle_vendor_request_finish 0 ⟨0xc2, 0, 0, 0⟩).2 =
      [Event.call .handle_allow_fpga_takeover_usb_finish, Event.allow_fpga_takeover_usb] :=
  c1_takeover_only_at_finish false ⟨fun _ => true⟩ 0 ⟨0xc2, 0, 0, 0⟩ rfl

/-- C2: at the Setup stage, the OS-descriptor opcode 0xEE with wIndex =
0x0004 accepts and transfers exactly the 40-byte block `desc_ms_os_10`
byte-for-byte; any other wIndex is rejected (returns false). -/
theorem c2_ms_descriptor (dbg : BoardHasDebugSpi) (env : Env)
    (rhport : Nat) (request : Request)
    (hb : request.bRequest = VENDOR_REQUEST_GET_MS_DESCRIPTOR) :
    (request.wIndex = 0x0004 →
      handle_vendor_request_setup dbg env rhport request =
        (true, [Event.call .handle_get_ms_descriptor,
                Event.tud_control_xfer (some desc_ms_os_10) 40])) ∧
    (request.wIndex ≠ 0x0004 →
      handle_vendor_request_setup dbg env rhport request =
        (false, [Event.call .handle_get_ms_descriptor])) ∧
    desc_ms_os_10.length = 40 := by
  have hlen : desc_ms_os_10.length = 40 := by decide
  have hdisp : handle_vendor_request_setup dbg env rhport request =
      handle_get_ms_descriptor rhport request := by
    simp [handle_vendor_request_setup, hb, VENDOR_REQUEST_GET_ID,
      VENDOR_REQUEST_TRIGGER_RECONFIGURATION, VENDOR_REQUEST_FORCE_FPGA_OFFLINE,
      VENDOR_REQUEST_ALLOW_FPGA_TAKEOVER_USB, VENDOR_REQUEST_JTAG_CLEAR_OUT_BUFFER,
      VENDOR_REQUEST_JTAG_SET_OUT_BUFFER, VENDOR_REQUEST_JTAG_GET_IN_BUFFER,
      VENDOR_REQUEST_JTAG_SCAN, VENDOR_REQUEST_JTAG_RUN_CLOCK, VENDOR_REQUEST_JTAG_START,
      VENDOR_REQUEST_JTAG_GOTO_STATE, VENDOR_REQUEST_JTAG_STOP,
      VENDOR_REQUEST_JTAG_GET_STATE, VENDOR_REQUEST_SET_LED_PATTERN,
      VENDOR_REQUEST_DEBUG_SPI_SEND, VENDOR_REQUEST_DEBUG_SPI_READ_RESPONSE,
      VENDOR_REQUEST_FLASH_SPI_SEND, VENDOR_REQUEST_TAKE_FLASH_LINES,
      VENDOR_REQUEST_RELEASE_FLASH_LINES, VENDOR_REQUEST_GET_MS_DESCRIPTOR]
  refine ⟨fun hw => ?_, fun hw => ?_, hlen⟩
  · rw [hdisp]
    simp [handle_get_ms_descriptor, hw, traced, tud_control_xfer, hlen]
  · rw [hdisp]
    simp [handle_get_ms_descriptor, hw, traced]

/-- Witness for C2 at the concrete request (0xEE, 0, 4, 0). -/
theorem c2_ms_descriptor_witness :
    ((⟨0xee, 0, 0x0004, 0⟩ : Request).wIndex = 0x0004 →
      handle_vendor_request_setup false ⟨fun _ => true⟩ 0 ⟨0xee, 0, 0x0004, 0⟩ =
        (true, [Event.call .handle_get_ms_descriptor,
                Event.tud_control_xfer (some desc_ms_os_10) 40])) ∧
    ((⟨0xee, 0, 0x0004, 0⟩ : Request).wIndex ≠ 0x0004 →
      handle_vendor_request_setup false ⟨fun _ => true⟩ 0 ⟨0xee, 0, 0x0004, 0⟩ =
        (false, [Event.call .handle_get_ms_descriptor])) ∧
    desc_ms_os_10.length = 40 :=
  c2_ms_descriptor false ⟨fun _ => true⟩ 0 ⟨0xee, 0, 0x0004, 0⟩ rfl

/-- C3 counterexample: at the concrete identify request (0xA0, 0, 0, 0) the
Setup dispatch transfers the identity string `description`, whose length is
20 bytes — not 18 as the claim states. -/
theorem c3_identity_counterexample :
    handle_vendor_request_setup false ⟨fun _ => true⟩ 0 ⟨0xa0, 0, 0, 0⟩ =
      (true, [Event.call .handle_get_id_request,
              Event.tud_control_xfer (some description) 20]) ∧
    description.length = 20 ∧ ¬ description.length = 18 := by
  refine ⟨?_, by decide, by decide⟩
  simp [handle_vendor_request_setup, VENDOR_REQUEST_GET_ID, handle_get_id_request,
    traced, tud_control_xfer]
  decide

/-- C3 (amended): for the identify opcode 0xA0 at the Setup stage, the
response payload equals the fixed identity string "Apollo Debug Module"
including its terminating NUL byte, and its length is exactly as declared:
20 bytes (`sizeof(description)`), not 18. -/
theorem c3_identity_amended (dbg : BoardHasDebugSpi) (env : Env)
    (rhport : Nat) (request : Request)
    (hb : request.bRequest = VENDOR_REQUEST_GET_ID) :
    handle_vendor_request_setup dbg env rhport request =
      (true, [Event.call .handle_get_id_request,
              Event.tud_control_xfer (some description) 20]) ∧
    description = ("Apollo Debug Module".data.map Char.toNat) ++ [0x00] ∧
    description.length = 20 ∧ description.getLast? = some 0x00 := by
  refine ⟨?_, rfl, by decide, by decide⟩
  have hlen : description.length = 20 := by decide
  simp [handle_vendor_request_setup, hb, VENDOR_REQUEST_GET_ID, handle_get_id_request,
    traced, tud_control_xfer, hlen]

/-- Witness for C3 (amended) at the concrete request (0xA0, 5, 6, 7). -/
theorem c3_identity_amended_witness :
    handle_vendor_request_setup true ⟨fun _ => false⟩ 2 ⟨0xa0, 5, 6, 7⟩ =
      (true, [Event.call .handle_get_id_request,
              Event.tud_control_xfer (some description) 20]) ∧
    description = ("Apollo Debug Module".data.map Char.toNat) ++ [0x00] ∧
    description.length = 20 ∧ description.getLast? = some 0x00 :=
  c3_identity_amended true ⟨fun _ => false⟩ 2 ⟨0xa0, 5, 6, 7⟩ rfl

@[simp] lemma calls_handle_get_id_request (rhport : Nat) (request : Request) :
    calls (handle_get_id_request rhport request).2 = [.handle_get_id_request] := by
  simp [handle_get_id_request, traced, tud_control_xfer]

@[simp] lemma calls_handle_trigger_fpga_reconfiguration (rhport : Nat) (request : Request) :
    calls (handle_trigger_fpga_reconfiguration rhport request).2 =
      [.handle_trigger_fpga_reconfiguration] := by
  simp [handle_trigger_fpga_reconfiguration, traced, effects_then,
    trigger_fpga_reconfiguration, tud_control_xfer, calls]

@[simp] lemma calls_handle_force_fpga_offline (rhport : Nat) (request : Request) :
    calls (handle_force_fpga_offline rhport request).2 = [.handle_force_fpga_offline] := by
  simp [handle_force_fpga_offline, traced, effects_then, force_fpga_offline,
    tud_control_xfer, calls]

@[simp] lemma calls_handle_allow_fpga_takeover_usb (rhport : Nat) (request : Request) :
    calls (handle_allow_fpga_takeover_usb rhport request).2 =
      [.handle_allow_fpga_takeover_usb] := by
  simp [handle_allow_fpga_takeover_usb, traced, tud_control_xfer]

@[simp] lemma calls_handle_set_led_pattern (rhport : Nat) (request : Request) :
    calls (handle_set_led_pattern rhport request).2 = [.handle_set_led_pattern] := by
  simp [handle_set_led_pattern, traced, effects_then, led_set_blink_pattern,
    tud_control_xfer, calls]

@[simp] lemma calls_handle_get_ms_descriptor (rhport : Nat) (request : Request) :
    calls (handle_get_ms_descriptor rhport request).2 = [.handle_get_ms_descriptor] := by
  by_cases hw : request.wIndex = 0x0004 <;>
    simp [handle_get_ms_descriptor, traced, tud_control_xfer, hw]

@[simp] lemma calls_handle_allow_fpga_takeover_usb_finish (rhport : Nat) (request : Request) :
    calls (handle_allow_fpga_takeover_usb_finish rhport request).2 =
      [.handle_allow_fpga_takeover_usb_finish] := by
  simp [handle_allow_fpga_takeover_usb_finish, traced, effects_then,
    allow_fpga_takeover_usb, calls]

@[simp] lemma calls_ext_handler (env : Env) (h : HandlerName) :
    calls (ext_handler env h).2 = [h] := by
  simp [ext_handler, traced]

lemma lookup_opcode_eq_none (b : Nat) :
    ∀ l : List (Nat × HandlerName), lookup_opcode b l = none ↔ ∀ p ∈ l, b ≠ p.1 := by
  intro l
  induction l with
  | nil => simp [lookup_opcode]
  | cons p rest ih =>
    obtain ⟨k, h⟩ := p
    by_cases hbk : b = k <;> simp [lookup_opcode, hbk, ih]

lemma setup_rejects_unknown (dbg : BoardHasDebugSpi) (env : Env) (rhport : Nat)
    (request : Request)
    (hl : lookup_opcode request.bRequest (setup_table dbg) = none) :
    handle_vendor_request_setup dbg env rhport request = (false, []) := by
  rw [lookup_opcode_eq_none] at hl
  unfold handle_vendor_request_setup
  cases dbg <;>
  simp only [setup_table, VENDOR_REQUEST_GET_ID, VENDOR_REQUEST_TRIGGER_RECONFIGURATION,
      VENDOR_REQUEST_FORCE_FPGA_OFFLINE, VENDOR_REQUEST_ALLOW_FPGA_TAKEOVER_USB,
      VENDOR_REQUEST_JTAG_CLEAR_OUT_BUFFER, VENDOR_REQUEST_JTAG_SET_OUT_BUFFER,
      VENDOR_REQUEST_JTAG_GET_IN_BUFFER, VENDOR_REQUEST_JTAG_SCAN,
      VENDOR_REQUEST_JTAG_RUN_CLOCK, VENDOR_REQUEST_JTAG_START,
      VENDOR_REQUEST_JTAG_GOTO_STATE, VENDOR_REQUEST_JTAG_STOP,
      VENDOR_REQUEST_JTAG_GET_STATE, VENDOR_REQUEST_SET_LED_PATTERN,
      VENDOR_REQUEST_DEBUG_SPI_SEND, VENDOR_REQUEST_DEBUG_SPI_READ_RESPONSE,
      VENDOR_REQUEST_FLASH_SPI_SEND, VENDOR_REQUEST_TAKE_FLASH_LINES,
      VENDOR_REQUEST_RELEASE_FLASH_LINES, VENDOR_REQUEST_GET_MS_DESCRIPTOR,
      Bool.false_eq_true, Bool.true_eq_false, false_and, true_and, if_false, ite_false,
      if_true, ite_true, List.cons_append, List.nil_append, List.forall_mem_cons,
      List.not_mem_nil, false_implies, forall_const, and_true, ne_eq] at hl ⊢
  · obtain ⟨h1, h2, h3, h4, h5, h6, h7, h8, h9, h10, h11, h12, h13, h14, h15⟩ := hl
    simp only [h1, h2, h3, h4, h5, h6, h7, h8, h9, h10, h11, h12, h13, h14, h15,
      if_false, ite_false]
  · obtain ⟨h1, h2, h3, h4, h5, h6, h7, h8, h9, h10, h11, h12, h13, h14, h15, h16,
      h17, h18, h19, h20⟩ := hl
    simp only [h1, h2, h3, h4, h5, h6, h7, h8, h9, h10, h11, h12, h13, h14, h15, h16,
      h17, h18, h19, h20, if_false, ite_false]

lemma setup_lookup_some_calls (dbg : BoardHasDebugSpi) (env : Env) (rhport : Nat)
    (request : Request) (h : HandlerName)
    (hl : lookup_opcode request.bRequest (setup_table dbg) = some h) :
    calls (handle_vendor_request_setup dbg env rhport request).2 = [h] := by
  unfold handle_vendor_request_setup
  cases dbg <;>
  simp only [setup_table, lookup_opcode, VENDOR_REQUEST_GET_ID, VENDOR_REQUEST_TRIGGER_RECONFIGURATION,
      VENDOR_REQUEST_FORCE_FPGA_OFFLINE, VENDOR_REQUEST_ALLOW_FPGA_TAKEOVER_USB,
      VENDOR_REQUEST_JTAG_CLEAR_OUT_BUFFER, VENDOR_REQUEST_JTAG_SET_OUT_BUFFER,
      VENDOR_REQUEST_JTAG_GET_IN_BUFFER, VENDOR_REQUEST_JTAG_SCAN,
      VENDOR_REQUEST_JTAG_RUN_CLOCK, VENDOR_REQUEST_JTAG_START,
      VENDOR_REQUEST_JTAG_GOTO_STATE, VENDOR_REQUEST_JTAG_STOP,
      VENDOR_REQUEST_JTAG_GET_STATE, VENDOR_REQUEST_SET_LED_PATTERN,
      VENDOR_REQUEST_DEBUG_SPI_SEND, VENDOR_REQUEST_DEBUG_SPI_READ_RESPONSE,
      VENDOR_REQUEST_FLASH_SPI_SEND, VENDOR_REQUEST_TAKE_FLASH_LINES,
      VENDOR_REQUEST_RELEASE_FLASH_LINES, VENDOR_REQUEST_GET_MS_DESCRIPTOR,
      Bool.false_eq_true, Bool.true_eq_false, false_and, true_and, if_false, ite_false,
      if_true, ite_true, List.cons_append, List.nil_append] at hl ⊢
  · by_cases e1 : request.bRequest = 0xa0
    · simp only [e1, eq_self_iff_true, if_true, ite_true, Option.some.injEq] at hl ⊢
      subst hl
      simp
    · simp only [e1, if_false, ite_false] at hl ⊢
      by_cases e2 : request.bRequest = 0xc0
      · simp only [e2, eq_self_iff_true, if_true, ite_true, Option.some.injEq] at hl ⊢
        subst hl
        simp
      · simp only [e2, if_false, ite_false] at hl ⊢
        by_cases e3 : request.bRequest = 0xc1
        · simp only [e3, eq_self_iff_true, if_true, ite_true, Option.some.injEq] at hl ⊢
          subst hl
          simp
        · simp only [e3, if_false, ite_false] at hl ⊢
          by_cases e4 : request.bRequest = 0xc2
          · simp only [e4, eq_self_iff_true, if_true, ite_true, Option.some.injEq] at hl ⊢
            subst hl
            simp
          · simp only [e4, if_false, ite_false] at hl ⊢
            by_cases e5 : request.bRequest = 0xb0
            · simp only [e5, eq_self_iff_true, if_true, ite_true, Option.some.injEq] at hl ⊢
              subst hl
              simp
            · simp only [e5, if_false, ite_false] at hl ⊢
              by_cases e6 : request.bRequest = 0xb1
              · simp only [e6, eq_self_iff_true, if_true, ite_true, Option.some.injEq] at hl ⊢
                subst hl
                simp
              · simp only [e6, if_false, ite_false] at hl ⊢
                by_cases e7 : request.bRequest = 0xb2
                · simp only [e7, eq_self_iff_true, if_true, ite_true, Option.some.injEq] at hl ⊢
                  subst hl
                  simp
                · simp only [e7, if_false, ite_false] at hl ⊢
                  by_cases e8 : request.bRequest = 0xb3
                  · simp only [e8, eq_self_iff_true, if_true, ite_true, Option.some.injEq] at hl ⊢
                    subst hl
                    simp
                  · simp only [e8, if_false, ite_false] at hl ⊢
                    by_cases e9 : request.bRequest = 0xb4
                    · simp only [e9, eq_self_iff_true, if_true, ite_true, Option.some.injEq] at hl ⊢
                      subst hl
                      simp
                    · simp only [e9, if_false, ite_false] at hl ⊢
                      by_cases e10 : request.bRequest = 0xbf
                      · simp only [e10, eq_self_iff_true, if_true, ite_true, Option.some.injEq] at hl ⊢
                        subst hl
                        simp
                      · simp only [e10, if_false, ite_false] at hl ⊢
                        by_cases e11 : request.bRequest = 0xb5
                        · simp only [e11, eq_self_iff_true, if_true, ite_true, Option.some.injEq] at hl ⊢
                          subst hl
                          simp
                        · simp only [e11, if_false, ite_false] at hl ⊢
                          by_cases e12 : request.bRequest = 0xbe
                          · simp only [e12, eq_self_iff_true, if_true, ite_true, Option.some.injEq] at hl ⊢
                            subst hl
                            simp
                          · simp only [e12, if_false, ite_false] at hl ⊢
                            by_cases e13 : request.bRequest = 0xb6
                            · simp only [e13, eq_self_iff_true, if_true, ite_true, Option.some.injEq] at hl ⊢
                              subst hl
                              simp
                            · simp only [e13, if_false, ite_false] at hl ⊢
                              by_cases e14 : request.bRequest = 0xa1
                              · simp only [e14, eq_self_iff_true, if_true, ite_true, Option.some.injEq] at hl ⊢
                                subst hl
                                simp
                              · simp only [e14, if_false, ite_false] at hl ⊢
                                by_cases e15 : request.bRequest = 0xee
                                · simp only [e15, eq_self_iff_true, if_true, ite_true, Option.some.injEq] at hl ⊢
                                  subst hl
                                  simp
                                · simp only [e15, if_false, ite_false] at hl ⊢
                                  exact Option.noConfusion hl
  · by_cases e1 : request.bRequest = 0xa0
    · simp only [e1, eq_self_iff_true, if_true, ite_true, Option.some.injEq] at hl ⊢
      subst hl
      simp
    · simp only [e1, if_false, ite_false] at hl ⊢
      by_cases e2 : request.bRequest = 0xc0
      · simp only [e2, eq_self_iff_true, if_true, ite_true, Option.some.injEq] at hl ⊢
        subst hl
        simp
      · simp only [e2, if_false, ite_false] at hl ⊢
        by_cases e3 : request.bRequest = 0xc1
        · simp only [e3, eq_self_iff_true, if_true, ite_true, Option.some.injEq] at hl ⊢
          subst hl
          simp
        · simp only [e3, if_false, ite_false] at hl ⊢
          by_cases e4 : request.bRequest = 0xc2
          · simp only [e4, eq_self_iff_true, if_true, ite_true, Option.some.injEq] at hl ⊢
            subst hl
            simp
          · simp only [e4, if_false, ite_false] at hl ⊢
            by_cases e5 : request.bRequest = 0xb0
            · simp only [e5, eq_self_iff_true, if_true, ite_true, Option.some.injEq] at hl ⊢
              subst hl
              simp
            · simp only [e5, if_false, ite_false] at hl ⊢
              by_cases e6 : request.bRequest = 0xb1
              · simp only [e6, eq_self_iff_true, if_true, ite_true, Option.some.injEq] at hl ⊢
                subst hl
                simp
              · simp only [e6, if_false, ite_false] at hl ⊢
                by_cases e7 : request.bRequest = 0xb2
                · simp only [e7, eq_self_iff_true, if_true, ite_true, Option.some.injEq] at hl ⊢
                  subst hl
                  simp
                · simp only [e7, if_false, ite_false] at hl ⊢
                  by_cases e8 : request.bRequest = 0xb3
                  · simp only [e8, eq_self_iff_true, if_true, ite_true, Option.some.injEq] at hl ⊢
                    subst hl
                    simp
                  · simp only [e8, if_false, ite_false] at hl ⊢
                    by_cases e9 : request.bRequest = 0xb4
                    · simp only [e9, eq_self_iff_true, if_true, ite_true, Option.some.injEq] at hl ⊢
                      subst hl
                      simp
                    · simp only [e9, if_false, ite_false] at hl ⊢
                      by_cases e10 : request.bRequest = 0xbf
                      · simp only [e10, eq_self_iff_true, if_true, ite_true, Option.some.injEq] at hl ⊢
                        subst hl
                        simp
                      · simp only [e10, if_false, ite_false] at hl ⊢
                        by_cases e11 : request.bRequest = 0xb5
                        · simp only [e11, eq_self_iff_true, if_true, ite_true, Option.some.injEq] at hl ⊢
                          subst hl
                          simp
                        · simp only [e11, if_false, ite_false] at hl ⊢
                          by_cases e12 : request.bRequest = 0xbe
                          · simp only [e12, eq_self_iff_true, if_true, ite_true, Option.some.injEq] at hl ⊢
                            subst hl
                            simp
                          · simp only [e12, if_false, ite_false] at hl ⊢
                            by_cases e13 : request.bRequest = 0xb6
                            · simp only [e13, eq_self_iff_true, if_true, ite_true, Option.some.injEq] at hl ⊢
                              subst hl
                              simp
                            · simp only [e13, if_false, ite_false] at hl ⊢
                              by_cases e14 : request.bRequest = 0xa1
                              · simp only [e14, eq_self_iff_true, if_true, ite_true, Option.some.injEq] at hl ⊢
                                subst hl
                                simp
                              · simp only [e14, if_false, ite_false] at hl ⊢
                                by_cases e15 : request.bRequest = 0x50
                                · simp only [e15, eq_self_iff_true, if_true, ite_true, Option.some.injEq] at hl ⊢
                                  subst hl
                                  simp
                                · simp only [e15, if_false, ite_false] at hl ⊢
                                  by_cases e16 : request.bRequest = 0x51
                                  · simp only [e16, eq_self_iff_true, if_true, ite_true, Option.some.injEq] at hl ⊢
                                    subst hl
                                    simp
                                  · simp only [e16, if_false, ite_false] at hl ⊢
                                    by_cases e17 : request.bRequest = 0x52
                                    · simp only [e17, eq_self_iff_true, if_true, ite_true, Option.some.injEq] at hl ⊢
                                      subst hl
                                      simp
                                    · simp only [e17, if_false, ite_false] at hl ⊢
                                      by_cases e18 : request.bRequest = 0x53
                                      · simp only [e18, eq_self_iff_true, if_true, ite_true, Option.some.injEq] at hl ⊢
                                        subst hl
                                        simp
                                      · simp only [e18, if_false, ite_false] at hl ⊢
                                        by_cases e19 : request.bRequest = 0x54
                                        · simp only [e19, eq_self_iff_true, if_true, ite_true, Option.some.injEq] at hl ⊢
                                          subst hl
                                          simp
                                        · simp only [e19, if_false, ite_false] at hl ⊢
                                          by_cases e20 : request.bRequest = 0xee
                                          · simp only [e20, eq_self_iff_true, if_true, ite_true, Option.some.injEq] at hl ⊢
                                            subst hl
                                            simp
                                          · simp only [e20, if_false, ite_false] at hl ⊢
                                            exact Option.noConfusion hl

/-- C4: every opcode with no entry in the Setup table (among them 0xE0,
and 0x50 through 0x54 when the board lacks debug SPI) is rejected by
Setup-stage dispatch with no handler executed: the result is false and the
trace is empty. -/
theorem c4_setup_unknown_rejected :
    (∀ (dbg : BoardHasDebugSpi) (env : Env) (rhport : Nat) (request : Request),
      lookup_opcode request.bRequest (setup_table dbg) = none →
      handle_vendor_request_setup dbg env rhport request = (false, [])) ∧
    (∀ dbg : BoardHasDebugSpi,
      lookup_opcode VENDOR_REQUEST_GET_RAIL_VOLTAGE (setup_table dbg) = none) ∧
    (∀ b : Nat, 0x50 ≤ b → b ≤ 0x54 →
      lookup_opcode b (setup_table false) = none) := by
  refine ⟨setup_rejects_unknown, fun dbg => ?_, fun b hb1 hb2 => ?_⟩
  · cases dbg <;> decide
  · interval_cases b <;> decide

/-- Witness for C4 at the concrete unserved opcode 0xE0. -/
theorem c4_setup_unknown_rejected_witness :
    lookup_opcode (0xe0 : Nat) (setup_table false) = none ∧
    handle_vendor_request_setup false ⟨fun _ => true⟩ 0 ⟨0xe0, 0, 0, 0⟩ = (false, []) :=
  ⟨by decide,
   c4_setup_unknown_rejected.1 false ⟨fun _ => true⟩ 0 ⟨0xe0, 0, 0, 0⟩ (by decide)⟩

/-- C5: for every opcode bound in the Setup table, Setup-stage dispatch
invokes exactly that handler, exactly once (the trace contains exactly one
handler entry, the bound one); moreover no two table entries share an
opcode and no two share a handler. -/
theorem c5_setup_exactly_one_handler :
    (∀ (dbg : BoardHasDebugSpi) (env : Env) (rhport : Nat) (request : Request)
      (h : HandlerName),
      lookup_opcode request.bRequest (setup_table dbg) = some h →
      calls (handle_vendor_request_setup dbg env rhport request).2 = [h]) ∧
    (∀ dbg : BoardHasDebugSpi,
      ((setup_table dbg).map Prod.fst).Nodup ∧
      ((setup_table dbg).map Prod.snd).Nodup) := by
  refine ⟨setup_lookup_some_calls, fun dbg => ?_⟩
  cases dbg <;> exact ⟨by decide, by decide⟩

/-- Witness for C5 at the concrete identify opcode 0xA0. -/
theorem c5_setup_exactly_one_handler_witness :
    lookup_opcode (0xa0 : Nat) (setup_table false) =
      some HandlerName.handle_get_id_request ∧
    calls (handle_vendor_request_setup false ⟨fun _ => true⟩ 0 ⟨0xa0, 0, 0, 0⟩).2 =
      [HandlerName.handle_get_id_request] :=
  ⟨by decide,
   c5_setup_exactly_one_handler.1 false ⟨fun _ => true⟩ 0 ⟨0xa0, 0, 0, 0⟩ _ (by decide)⟩

/-- C6: an opcode absent from the Data-stage table makes Data-stage
dispatch a no-op success (returns true, no handler executed, empty trace),
and an opcode absent from the Finish-stage table makes Finish-stage
dispatch a no-op success as well. -/
theorem c6_data_finish_noop :
    (∀ (env : Env) (rhport : Nat) (request : Request),
      lookup_opcode request.bRequest data_table = none →
      handle_vendor_request_complete env rhport request = (true, [])) ∧
    (∀ (rhport : Nat) (request : Request),
      lookup_opcode request.bRequest finish_table = none →
      handle_vendor_request_finish rhport request = (true, [])) := by
  constructor
  · intro env rhport request hl
    rw [lookup_opcode_eq_none] at hl
    unfold handle_vendor_request_complete
    simp only [data_table, VENDOR_REQUEST_DEBUG_SPI_SEND, VENDOR_REQUEST_FLASH_SPI_SEND,
      List.forall_mem_cons, List.not_mem_nil, false_implies, forall_const, and_true,
      ne_eq] at hl ⊢
    obtain ⟨h1, h2⟩ := hl
    simp only [h1, h2, if_false, ite_false]
  · intro rhport request hl
    rw [lookup_opcode_eq_none] at hl
    unfold handle_vendor_request_finish
    simp only [finish_table, VENDOR_REQUEST_ALLOW_FPGA_TAKEOVER_USB,
      List.forall_mem_cons, List.not_mem_nil, false_implies, forall_const, and_true,
      ne_eq] at hl ⊢
    obtain ⟨h1⟩ := hl
    simp only [h1, if_false, ite_false]

/-- Witness for C6 at the concrete opcode 0xA0, absent from both the Data
and the Finish tables. -/
theorem c6_data_finish_noop_witness :
    lookup_opcode (0xa0 : Nat) data_table = none ∧
    lookup_opcode (0xa0 : Nat) finish_table = none ∧
    handle_vendor_request_complete ⟨fun _ => true⟩ 0 ⟨0xa0, 0, 0, 0⟩ = (true, []) ∧
    handle_vendor_request_finish 0 ⟨0xa0, 0, 0, 0⟩ = (true, []) :=
  ⟨by decide, by decide,
   c6_data_finish_noop.1 ⟨fun _ => true⟩ 0 ⟨0xa0, 0, 0, 0⟩ (by decide),
   c6_data_finish_noop.2 0 ⟨0xa0, 0, 0, 0⟩ (by decide)⟩

/-- C7: dispatching the LED-pattern opcode 0xA1 is idempotent on the LED
hardware state — replaying the dispatch trace twice from any initial blink
pattern leaves the same pattern as replaying it once. -/
theorem c7_led_idempotent (dbg : BoardHasDebugSpi) (env : Env) (rhport : Nat)
    (request : Request) (s : Option Nat)
    (hb : request.bRequest = VENDOR_REQUEST_SET_LED_PATTERN) :
    led_pattern_after
        (led_pattern_after s (handle_vendor_request_setup dbg env rhport request).2)
        (handle_vendor_request_setup dbg env rhport request).2 =
      led_pattern_after s (handle_vendor_request_setup dbg env rhport request).2 := by
  have hdisp : handle_vendor_request_setup dbg env rhport request =
      handle_set_led_pattern rhport request := by
    simp [handle_vendor_request_setup, hb, VENDOR_REQUEST_GET_ID,
      VENDOR_REQUEST_TRIGGER_RECONFIGURATION, VENDOR_REQUEST_FORCE_FPGA_OFFLINE,
      VENDOR_REQUEST_ALLOW_FPGA_TAKEOVER_USB, VENDOR_REQUEST_JTAG_CLEAR_OUT_BUFFER,
      VENDOR_REQUEST_JTAG_SET_OUT_BUFFER, VENDOR_REQUEST_JTAG_GET_IN_BUFFER,
      VENDOR_REQUEST_JTAG_SCAN, VENDOR_REQUEST_JTAG_RUN_CLOCK, VENDOR_REQUEST_JTAG_START,
      VENDOR_REQUEST_JTAG_GOTO_STATE, VENDOR_REQUEST_JTAG_STOP,
      VENDOR_REQUEST_JTAG_GET_STATE, VENDOR_REQUEST_SET_LED_PATTERN]
  rw [hdisp]
  simp [handle_set_led_pattern, traced, effects_then, led_set_blink_pattern,
    tud_control_xfer, led_pattern_after]

/-- Witness for C7 at the concrete request (0xA1, wValue 3) from the empty
initial LED state. -/
theorem c7_led_idempotent_witness :
    led_pattern_after
        (led_pattern_after none
          (handle_vendor_request_setup false ⟨fun _ => true⟩ 0 ⟨0xa1, 3, 0, 0⟩).2)
        (handle_vendor_request_setup false ⟨fun _ => true⟩ 0 ⟨0xa1, 3, 0, 0⟩).2 =
      led_pattern_after none
        (handle_vendor_request_setup false ⟨fun _ => true⟩ 0 ⟨0xa1, 3, 0, 0⟩).2 :=
  c7_led_idempotent false ⟨fun _ => true⟩ 0 ⟨0xa1, 3, 0, 0⟩ none rfl

/-- C8: the self-test opcode 0xE0 has no Setup-table entry (its case is
commented out), so Setup-stage dispatch rejects it with no handler
executed. -/
theorem c8_selftest_rejected (dbg : BoardHasDebugSpi) (env : Env) (rhport : Nat)
    (request : Request)
    (hb : request.bRequest = VENDOR_REQUEST_GET_RAIL_VOLTAGE) :
    handle_vendor_request_setup dbg env rhport request = (false, []) ∧
    lookup_opcode request.bRequest (setup_table dbg) = none := by
  have h2 : lookup_opcode request.bRequest (setup_table dbg) = none := by
    rw [hb]
    cases dbg <;> decide
  exact ⟨setup_rejects_unknown dbg env rhport request h2, h2⟩

/-- Witness for C8 at the concrete request (0xE0, 0, 0, 0). -/
theorem c8_selftest_rejected_witness :
    handle_vendor_request_setup true ⟨fun _ => true⟩ 0 ⟨0xe0, 0, 0, 0⟩ = (false, []) ∧
    lookup_opcode (⟨0xe0, 0, 0, 0⟩ : Request).bRequest (setup_table true) = none :=
  c8_selftest_rejected true ⟨fun _ => true⟩ 0 ⟨0xe0, 0, 0, 0⟩ rfl

/-- C9: Finish/ACK-stage dispatch never rejects — for every request it
returns true (the 0xC2 finish handler returns true unconditionally), and
the TinyUSB callback returns true with no action for any stage outside
Setup, Data and ACK. -/
theorem c9_finish_never_rejects (dbg : BoardHasDebugSpi) (env : Env) (rhport : Nat)
    (request : Request) (stage : Nat) :
    (handle_vendor_request_finish rhport request).1 = true ∧
    (handle_allow_fpga_takeover_usb_finish rhport request).1 = true ∧
    (stage ≠ CONTROL_STAGE_SETUP → stage ≠ CONTROL_STAGE_DATA →
      stage ≠ CONTROL_STAGE_ACK →
      tud_vendor_control_xfer_cb dbg env rhport stage request = (true, [])) := by
  refine ⟨?_, rfl, fun h1 h2 h3 => ?_⟩
  · unfold handle_vendor_request_finish
    split_ifs <;> rfl
  · unfold tud_vendor_control_xfer_cb
    rw [if_neg h1, if_neg h2, if_neg h3]

/-- Witness for C9 at the idle stage value 0 (CONTROL_STAGE_IDLE). -/
theorem c9_finish_never_rejects_witness :
    (handle_vendor_request_finish 0 ⟨0xc2, 0, 0, 0⟩).1 = true ∧
    (handle_allow_fpga_takeover_usb_finish 0 ⟨0xc2, 0, 0, 0⟩).1 = true ∧
    ((0 : Nat) ≠ CONTROL_STAGE_SETUP → (0 : Nat) ≠ CONTROL_STAGE_DATA →
      (0 : Nat) ≠ CONTROL_STAGE_ACK →
      tud_vendor_control_xfer_cb false ⟨fun _ => true⟩ 0 0 ⟨0xc2, 0, 0, 0⟩ = (true, [])) :=
  c9_finish_never_rejects false ⟨fun _ => true⟩ 0 ⟨0xc2, 0, 0, 0⟩ 0

/-- C10: the compatibility descriptor block is internally consistent: its
little-endian header length field (bytes 0 to 3) equals 0x28 = 40, the
block's actual length and the byte count transferred when it is served;
and its wIndex field (bytes 6 and 7, little-endian) equals 0x0004, the
sentinel the provider compares `wIndex` against. -/
theorem c10_descriptor_consistent :
    desc_ms_os_10.length = 40 ∧
    desc_ms_os_10.getD 0 0 + 2 ^ 8 * desc_ms_os_10.getD 1 0 +
      2 ^ 16 * desc_ms_os_10.getD 2 0 + 2 ^ 24 * desc_ms_os_10.getD 3 0 = 40 ∧
    desc_ms_os_10.getD 6 0 + 2 ^ 8 * desc_ms_os_10.getD 7 0 = 0x0004 ∧
    (∀ (rhport : Nat) (request : Request),
      ((handle_get_ms_descriptor rhport request).1 = true ↔
        request.wIndex = desc_ms_os_10.getD 6 0 + 2 ^ 8 * desc_ms_os_10.getD 7 0) ∧
      (request.wIndex = 0x0004 →
        (handle_get_ms_descriptor rhport request).2 =
          [Event.call .handle_get_ms_descriptor,
           Event.tud_control_xfer (some desc_ms_os_10) desc_ms_os_10.length])) := by
  have hv : desc_ms_os_10.getD 6 0 + 2 ^ 8 * desc_ms_os_10.getD 7 0 = 0x0004 := by decide
  refine ⟨by decide, by decide, hv, fun rhport request => ⟨?_, fun hw => ?_⟩⟩
  · rw [hv]
    by_cases hw : request.wIndex = 0x0004 <;>
      simp [handle_get_ms_descriptor, traced, tud_control_xfer, hw]
  · simp [handle_get_ms_descriptor, traced, tud_control_xfer, hw]

/-- Witness for C10 at the concrete request (0xEE, 0, 4, 0). -/
theorem c10_descriptor_consistent_witness :
    ((handle_get_ms_descriptor 0 ⟨0xee, 0, 0x0004, 0⟩).1 = true ↔
      (⟨0xee, 0, 0x0004, 0⟩ : Request).wIndex =
        desc_ms_os_10.getD 6 0 + 2 ^ 8 * desc_ms_os_10.getD 7 0) ∧
    ((⟨0xee, 0, 0x0004, 0⟩ : Request).wIndex = 0x0004 →
      (handle_get_ms_descriptor 0 ⟨0xee, 0, 0x0004, 0⟩).2 =
        [Event.call .handle_get_ms_descriptor,
         Event.tud_control_xfer (some desc_ms_os_10) desc_ms_os_10.length]) :=
  c10_descriptor_consistent.2.2.2 0 ⟨0xee, 0, 0x0004, 0⟩
